import Mathlib

/-!
Shallow embedding of `scripts/generate-dynamic-dashboard.py`
(`SecurityDashboardGenerator`): the safe JSON/JSONL loader, the eight
per-tool normalizers and the overall-status aggregator, together with
theorems settling the specification claims about them.

Python values produced by `json.loads` are modelled by `PyVal` (JSON
`null` becomes Python `None`, i.e. `PyVal.none`).  Python operations that
can raise (`.get` on a non-dict, `len` of a non-sized value, iteration of
a non-iterable, ...) are modelled in the `Except PyErr` monad, so an
analyzer that would crash in Python produces `Except.error` here.

`json.loads` itself is standard-library code, modelled here by
`json_loads` on the JSON fragment actually exercised by the reports:
`null`/`true`/`false`, integer literals, escape-free strings, arrays and
objects, with JSON whitespace.  Inputs outside this fragment (floats,
string escapes, ...) are conservatively reported as parse failures.
-/

/-- Python values as produced by `json.loads`.  JSON `null` parses to the
Python value `None` (`PyVal.none`); objects become dicts with string keys. -/
inductive PyVal where
  | none
  | bool (b : Bool)
  | int (n : Int)
  | str (s : String)
  | list (xs : List PyVal)
  | dict (kvs : List (String × PyVal))

/-- Python truthiness: `None`, `False`, `0`, `""`, `[]`, `{}` are falsy. -/
def PyVal.truthy : PyVal → Bool
  | .none => false
  | .bool b => b
  | .int n => n != 0
  | .str s => s != ""
  | .list xs => !xs.isEmpty
  | .dict kvs => !kvs.isEmpty

/-- Python exceptions the embedded code can raise. -/
inductive PyErr where
  | typeError
  | attributeError
  | keyError
  | valueError
  | permissionError
deriving DecidableEq

/-- Model of `v.get(k, default)`: total on dicts, `AttributeError` on anything else. -/
def pyGet (v : PyVal) (k : String) (default : PyVal) : Except PyErr PyVal :=
  match v with
  | .dict kvs => .ok (((kvs.lookup k).getD default))
  | _ => .error .attributeError

/-- Model of `v[k]` with a string subscript: `KeyError` on a dict without the key,
`TypeError` on non-dicts (list/str indices must be integers/slices). -/
def pyGetItem (v : PyVal) (k : String) : Except PyErr PyVal :=
  match v with
  | .dict kvs =>
      match kvs.lookup k with
      | some x => .ok x
      | _ => .error .keyError
  | _ => .error .typeError

/-- Python `str.strip()` (on its ASCII-whitespace fragment). -/
def pyStrip (s : String) : String :=
  String.mk (((s.toList.dropWhile Char.isWhitespace).reverse.dropWhile Char.isWhitespace).reverse)

/-- Splitting on a separator character, `str.split(sep)` style: every
separator occurrence delimits a (possibly empty) field. -/
def splitChAux (sep : Char) : List Char → List Char → List String
  | [], cur => [String.mk cur.reverse]
  | c :: cs, cur =>
      if c = sep then String.mk cur.reverse :: splitChAux sep cs []
      else splitChAux sep cs (c :: cur)

/-- The split `s.split(sep)` for a one-character separator. -/
def splitCh (sep : Char) (s : String) : List String := splitChAux sep s.toList []

/-- Prefix test on character lists. -/
def prefixOfChars : List Char → List Char → Bool
  | [], _ => true
  | _ :: _, [] => false
  | a :: as, b :: bs => a == b && prefixOfChars as bs

/-- Substring occurrence on character lists. -/
def strContainsAux (pat : List Char) : List Char → Bool
  | [] => prefixOfChars pat []
  | c :: cs => prefixOfChars pat (c :: cs) || strContainsAux pat cs

/-- Substring test on strings (`pat in s` for Python strings). -/
def strContains (s pat : String) : Bool :=
  strContainsAux pat.toList s.toList

/-- Model of `k in v` for a string `k`: key membership on dicts, element membership
on lists, substring test on strings, `TypeError` otherwise. -/
def pyContains (v : PyVal) (k : String) : Except PyErr Bool :=
  match v with
  | .dict kvs => .ok (kvs.any (·.1 == k))
  | .list xs => .ok (xs.any fun x => match x with | .str t => t == k | _ => false)
  | .str s => .ok (strContains s k)
  | _ => .error .typeError

/-- Model of `len(v)`: defined on lists, dicts and strings, `TypeError` otherwise. -/
def pyLen : PyVal → Except PyErr Nat
  | .list xs => .ok xs.length
  | .dict kvs => .ok kvs.length
  | .str s => .ok s.length
  | _ => .error .typeError

/-- Model of `for x in v`: lists yield their elements, dicts their keys, strings
their one-character substrings; anything else raises `TypeError`. -/
def pyIter : PyVal → Except PyErr (List PyVal)
  | .list xs => .ok xs
  | .dict kvs => .ok (kvs.map fun kv => PyVal.str kv.1)
  | .str s => .ok (s.toList.map fun c => PyVal.str (String.singleton c))
  | _ => .error .typeError

/-- Hashability: lists and dicts are unhashable (adding one to a `set`
raises `TypeError`). -/
def pyHashable : PyVal → Bool
  | .list _ => false
  | .dict _ => false
  | _ => true

/-- Python `==` restricted to hashable values (all that ever reach a set or
a dict-membership test here); mirrors the numeric identification of bools
(`True == 1`).  Distinct-type comparisons otherwise yield `False`. -/
def pyEq : PyVal → PyVal → Bool
  | .none, .none => true
  | .bool b, .bool c => b == c
  | .bool b, .int n => (if b then (1 : Int) else 0) == n
  | .int n, .bool b => n == (if b then (1 : Int) else 0)
  | .int m, .int n => m == n
  | .str s, .str t => s == t
  | _, _ => false

/-- Insertion into a Python `set`, modelled as a duplicate-free list. -/
def setInsert (s : List PyVal) (v : PyVal) : List PyVal :=
  if s.any (pyEq · v) then s else s ++ [v]

/-- Value of a digit string. -/
def digitsToNat (cs : List Char) : Nat :=
  cs.foldl (fun a c => a * 10 + (c.toNat - '0'.toNat)) 0

/-- Decimal-string fragment of Python `float(str)`: optional sign, digits
with an optional fractional part (no exponents / `inf` / `nan`). -/
def parseDecimal (s : String) : Option ℚ :=
  let core : String → Option ℚ := fun t =>
    match splitCh '.' t with
    | [a] =>
        if a != "" && a.toList.all Char.isDigit then
          some (digitsToNat a.toList)
        else Option.none
    | [a, b] =>
        if (a != "" || b != "") && a.toList.all Char.isDigit && b.toList.all Char.isDigit then
          some ((digitsToNat a.toList : ℚ) + (digitsToNat b.toList : ℚ) / (10 ^ b.toList.length))
        else Option.none
    | _ => Option.none
  match s.toList with
  | '-' :: rest => (core (String.mk rest)).map (fun q => -q)
  | '+' :: rest => core (String.mk rest)
  | _ => core s

/-- Python `float(v)`: numbers and bools coerce, strings are parsed
(`ValueError` on failure), everything else raises `TypeError`. -/
def pyFloat : PyVal → Except PyErr ℚ
  | .int n => .ok (n : ℚ)
  | .bool b => .ok (if b then 1 else 0)
  | .str s =>
      match parseDecimal s with
      | some q => .ok q
      | _ => .error .valueError
  | _ => .error .typeError

/-- Numeric value for an `f"{v:.1f}"` format target: ints and bools format
as numbers; strings (and everything else) raise. -/
def pyFmtNum : PyVal → Except PyErr ℚ
  | .int n => .ok (n : ℚ)
  | .bool b => .ok (if b then 1 else 0)
  | _ => .error .valueError

/-- Rounding to one decimal place (`round(x, 1)` / `f"{x:.1f}"`; exact-tie
behaviour of binary-float banker's rounding is approximated by `round`). -/
def round1 (q : ℚ) : ℚ := (round (q * 10) : ℤ) / 10

/-- JSON whitespace skipping (space, tab, newline, carriage return). -/
def skipWs : List Char → List Char
  | c :: cs => if c = ' ' ∨ c = '\t' ∨ c = '\n' ∨ c = '\r' then skipWs cs else c :: cs
  | [] => []

/-- String literal body without escapes: consume up to the closing quote. -/
def parseStrLit : List Char → Option (String × List Char)
  | [] => Option.none
  | c :: cs =>
      if c = '"' then some ("", cs)
      else if c = '\\' then Option.none
      else (parseStrLit cs).map (fun p => (String.singleton c ++ p.1, p.2))

/-- Integer literal: digits without a redundant leading zero (JSON rejects
`01`), returning the value and the rest of the input. -/
def parseNatLit (cs : List Char) : Option (Nat × List Char) :=
  let ds := cs.takeWhile Char.isDigit
  match ds with
  | [] => Option.none
  | [_] => some (digitsToNat ds, cs.dropWhile Char.isDigit)
  | d :: _ :: _ =>
      if d = '0' then Option.none
      else some (digitsToNat ds, cs.dropWhile Char.isDigit)

/-- Object insertion: a duplicate key keeps its position but takes the last
value, as `json.loads` does when building a dict. -/
def insertKV (kvs : List (String × PyVal)) (k : String) (v : PyVal) : List (String × PyVal) :=
  if kvs.any (·.1 == k) then kvs.map (fun kv => if kv.1 == k then (k, v) else kv)
  else kvs ++ [(k, v)]

mutual

/-- Parse one JSON value from the input, fuelled. -/
def parseVal : Nat → List Char → Option (PyVal × List Char)
  | 0, _ => Option.none
  | Nat.succ fuel, cs =>
      match skipWs cs with
      | 'n' :: 'u' :: 'l' :: 'l' :: rest => some (PyVal.none, rest)
      | 't' :: 'r' :: 'u' :: 'e' :: rest => some (PyVal.bool true, rest)
      | 'f' :: 'a' :: 'l' :: 's' :: 'e' :: rest => some (PyVal.bool false, rest)
      | '"' :: rest => (parseStrLit rest).map (fun p => (PyVal.str p.1, p.2))
      | '[' :: rest =>
          match skipWs rest with
          | ']' :: r => some (PyVal.list [], r)
          | r => parseElems fuel r []
      | '{' :: rest =>
          match skipWs rest with
          | '}' :: r => some (PyVal.dict [], r)
          | r => parseMembers fuel r []
      | '-' :: rest => (parseNatLit rest).map (fun p => (PyVal.int (-(p.1 : Int)), p.2))
      | c :: rest =>
          if c.isDigit then (parseNatLit (c :: rest)).map (fun p => (PyVal.int p.1, p.2))
          else Option.none
      | [] => Option.none

/-- Parse the remaining elements of a non-empty array. -/
def parseElems : Nat → List Char → List PyVal → Option (PyVal × List Char)
  | 0, _, _ => Option.none
  | Nat.succ fuel, cs, acc =>
      match parseVal fuel cs with
      | some (v, r) =>
          match skipWs r with
          | ',' :: r2 => parseElems fuel r2 (acc ++ [v])
          | ']' :: r2 => some (PyVal.list (acc ++ [v]), r2)
          | _ => Option.none
      | _ => Option.none

/-- Parse the remaining members of a non-empty object. -/
def parseMembers : Nat → List Char → List (String × PyVal) → Option (PyVal × List Char)
  | 0, _, _ => Option.none
  | Nat.succ fuel, cs, acc =>
      match skipWs cs with
      | '"' :: r =>
          match parseStrLit r with
          | some (k, r1) =>
              match skipWs r1 with
              | ':' :: r2 =>
                  match parseVal fuel r2 with
                  | some (v, r3) =>
                      match skipWs r3 with
                      | ',' :: r4 => parseMembers fuel r4 (insertKV acc k v)
                      | '}' :: r4 => some (PyVal.dict (insertKV acc k v), r4)
                      | _ => Option.none
                  | _ => Option.none
              | _ => Option.none
          | _ => Option.none
      | _ => Option.none

end

/-- Model of `json.loads` on the fragment described in the module header:
the whole (already stripped) input must be consumed up to trailing JSON
whitespace; `Option.none` models a raised `json.JSONDecodeError`. -/
def json_loads (s : String) : Option PyVal :=
  match parseVal (2 * s.length + 2) s.toList with
  | some (v, rest) => if (skipWs rest).isEmpty then some v else Option.none
  | _ => Option.none

/-- The JSONL fallback of `load_json_safely` (lines 30–38): split on
newlines, skip blank lines, keep every line that parses, in order. -/
def jsonlResults (content : String) : List PyVal :=
  (splitCh '\n' content).foldl
    (fun acc line =>
      if pyStrip line = "" then acc
      else
        match json_loads line with
        | some obj => acc ++ [obj]
        | _ => acc)
    []

/-- Lines 25–39 of `load_json_safely`, applied to the stripped file
content: whole-document parse first, JSONL fallback otherwise, with
`results if results else None` at the end. -/
def load_content (content : String) : PyVal :=
  match json_loads content with
  | some v => v
  | _ =>
      let results := jsonlResults content
      if results.isEmpty then PyVal.none else PyVal.list results

/-- Outcome of `open(file_path).read()` for the requested path. -/
inductive ReadOutcome where
  | ok (raw : String)
  | fileNotFound
  | permissionError

/-- Model of `load_json_safely` (lines 19–43): the raw content is stripped and
parsed; the `except` clause catches `FileNotFoundError` only (printing a
warning and returning `None`), so a `PermissionError` from `open`
propagates to the caller. -/
def load_json_safely : ReadOutcome → Except PyErr PyVal
  | .ok raw => .ok (load_content (pyStrip raw))
  | .fileNotFound => .ok PyVal.none
  | .permissionError => .error .permissionError

/-- The value `load_json_safely` yields on a readable file whose raw
content is `raw`; the analyzers below consume their files through this. -/
def loadOk (raw : String) : PyVal := load_content (pyStrip raw)

/-- The three tool status strings `'good' | 'warning' | 'critical'`. -/
inductive Status where
  | good
  | warning
  | critical
deriving DecidableEq

/-- Summary dict returned by `analyze_trufflehog_data`. -/
structure TrufflehogSummary where
  total : Nat
  verified : Nat
  unverified : Nat
  detector_types : Nat
  status : Status
deriving DecidableEq

/-- Running counters of the TruffleHog loop (the `detector_types` set is
kept as a duplicate-free list). -/
structure THAcc where
  total : Nat
  verified : Nat
  unverified : Nat
  detectors : List PyVal

/-- The finding guard of lines 61–64 / 71–74: a dict carrying
`DetectorName`, `Raw` and `SourceMetadata` keys. -/
def isFinding (entry : PyVal) : Bool :=
  match entry with
  | .dict kvs =>
      kvs.any (·.1 == "DetectorName") && kvs.any (·.1 == "Raw") &&
        kvs.any (·.1 == "SourceMetadata")
  | _ => false

/-- Body shared by the per-entry branch (lines 61–70) and the
single-finding branch (lines 71–81): adding an unhashable detector value
to the `detector_types` set raises `TypeError`. -/
def thProcessEntry (acc : THAcc) (entry : PyVal) : Except PyErr THAcc := do
  if isFinding entry then
    let acc := { acc with total := acc.total + 1 }
    let v ← pyGet entry "Verified" (.bool false)
    let acc :=
      if v.truthy then { acc with verified := acc.verified + 1 }
      else { acc with unverified := acc.unverified + 1 }
    let d ← pyGet entry "DetectorName" (.str "Unknown")
    if pyHashable d then
      pure { acc with detectors := setInsert acc.detectors d }
    else
      throw PyErr.typeError
  else
    pure acc

/-- One file of the TruffleHog loop: falsy data is skipped; list data is
scanned entry by entry; any other data is checked as a single finding. -/
def thProcessData (acc : THAcc) (data : PyVal) : Except PyErr THAcc := do
  if data.truthy then
    match data with
    | .list entries => entries.foldlM thProcessEntry acc
    | _ => thProcessEntry acc data
  else
    pure acc

/-- Model of `analyze_trufflehog_data` (lines 45–89).  The directory is `none` when
`trufflehog-reports` does not exist, otherwise the raw contents of its
`*.json` files in glob order. -/
def analyze_trufflehog_data (dir : Option (List String)) :
    Except PyErr TrufflehogSummary := do
  let start : THAcc := ⟨0, 0, 0, []⟩
  let acc ←
    match dir with
    | some files => files.foldlM (fun a c => thProcessData a (loadOk c)) start
    | _ => pure start
  pure
    { total := acc.total, verified := acc.verified, unverified := acc.unverified,
      detector_types := acc.detectors.length,
      status :=
        if acc.verified > 0 then .critical
        else if acc.unverified > 0 then .warning else .good }

/-- The four-bucket severity histogram of Grype (lower-case keys). -/
structure SevCounts where
  critical : Nat
  high : Nat
  medium : Nat
  low : Nat
deriving DecidableEq

/-- Summary dict returned by `analyze_grype_data`. -/
structure GrypeSummary where
  total : Nat
  severity_counts : SevCounts
  sbom_files : Nat
  status : Status
deriving DecidableEq

/-- Python `str.lower()` on the ASCII fragment (structural, so that it
evaluates by kernel reduction). -/
def strLower (s : String) : String := String.mk (s.toList.map Char.toLower)

/-- One match of the Grype loop (lines 105–109): `.lower()` raises on a
non-string severity; unrecognized severities touch no bucket. -/
def grypeProcessMatch (sc : SevCounts) (m : PyVal) : Except PyErr SevCounts := do
  let vulnerability ← pyGet m "vulnerability" (.dict [])
  let severityRaw ← pyGet vulnerability "severity" (.str "unknown")
  match severityRaw with
  | .str s =>
      pure
        (match strLower s with
        | "critical" => { sc with critical := sc.critical + 1 }
        | "high" => { sc with high := sc.high + 1 }
        | "medium" => { sc with medium := sc.medium + 1 }
        | "low" => { sc with low := sc.low + 1 }
        | _ => sc)
  | _ => throw PyErr.attributeError

/-- One file of the Grype loop (lines 100–109): `total_vulns` grows by
`len(matches)` and every iterated match votes into the histogram. -/
def grypeProcessData (acc : Nat × SevCounts) (data : PyVal) :
    Except PyErr (Nat × SevCounts) := do
  if data.truthy then
    let matchesV ← pyGet data "matches" (.list [])
    let n ← pyLen matchesV
    let items ← pyIter matchesV
    let sc ← items.foldlM grypeProcessMatch acc.2
    pure (acc.1 + n, sc)
  else
    pure acc

/-- Model of `analyze_grype_data` (lines 91–122).  The directory is `none` when
`grype-reports` does not exist, otherwise the contents of its
`grype-*.json` files together with the number of `sbom-*.json` files. -/
def analyze_grype_data (dir : Option (List String × Nat)) :
    Except PyErr GrypeSummary := do
  let (total, sc, sbom) ←
    match dir with
    | some (files, sbomCount) => do
        let (t, sc) ← files.foldlM (fun a c => grypeProcessData a (loadOk c)) ((0 : Nat), (⟨0, 0, 0, 0⟩ : SevCounts))
        pure (t, sc, sbomCount)
    | _ => pure (0, (⟨0, 0, 0, 0⟩ : SevCounts), 0)
  pure
    { total := total, severity_counts := sc, sbom_files := sbom,
      status :=
        if sc.critical > 0 then .critical
        else if sc.high > 0 then .warning else .good }

/-- Summary dict returned by `analyze_trivy_data` (upper-case buckets). -/
structure TrivySummary where
  total : Nat
  severity_counts : SevCounts
  scanned_targets : Nat
  status : Status
deriving DecidableEq

/-- One vulnerability of the Trivy loop (lines 142–145): the severity
value is matched against the dict keys by Python `==` (exact case, no
lowering); an unhashable severity raises inside the `in` test. -/
def trivyProcessVuln (sc : SevCounts) (vuln : PyVal) : Except PyErr SevCounts := do
  let severity ← pyGet vuln "Severity" (.str "UNKNOWN")
  if pyHashable severity then
    pure
      (if pyEq severity (.str "CRITICAL") then { sc with critical := sc.critical + 1 }
      else if pyEq severity (.str "HIGH") then { sc with high := sc.high + 1 }
      else if pyEq severity (.str "MEDIUM") then { sc with medium := sc.medium + 1 }
      else if pyEq severity (.str "LOW") then { sc with low := sc.low + 1 }
      else sc)
  else
    throw PyErr.typeError

/-- One result of the Trivy loop (lines 138–145). -/
def trivyProcessResult (acc : Nat × SevCounts) (result : PyVal) :
    Except PyErr (Nat × SevCounts) := do
  let vulnerabilities ← pyGet result "Vulnerabilities" (.list [])
  let n ← pyLen vulnerabilities
  let items ← pyIter vulnerabilities
  let sc ← items.foldlM trivyProcessVuln acc.2
  pure (acc.1 + n, sc)

/-- One file of the Trivy loop (lines 132–145): a truthy file counts as a
scanned target. -/
def trivyProcessData (acc : Nat × Nat × SevCounts) (data : PyVal) :
    Except PyErr (Nat × Nat × SevCounts) := do
  if data.truthy then
    let results ← pyGet data "Results" (.list [])
    let items ← pyIter results
    let (t, sc) ← items.foldlM trivyProcessResult (acc.2.1, acc.2.2)
    pure (acc.1 + 1, t, sc)
  else
    pure acc

/-- Model of `analyze_trivy_data` (lines 124–155).  The directory is `none` when
`trivy-reports` does not exist, otherwise the contents of its
`trivy-*.json` files in glob order. -/
def analyze_trivy_data (dir : Option (List String)) :
    Except PyErr TrivySummary := do
  let (targets, total, sc) ←
    match dir with
    | some files =>
        files.foldlM (fun a c => trivyProcessData a (loadOk c)) ((0 : Nat), (0 : Nat), (⟨0, 0, 0, 0⟩ : SevCounts))
    | _ => pure (0, 0, (⟨0, 0, 0, 0⟩ : SevCounts))
  pure
    { total := total, severity_counts := sc, scanned_targets := targets,
      status :=
        if sc.critical > 0 then .critical
        else if sc.high > 0 then .warning else .good }

/-- Summary dict returned by `analyze_checkov_data`; `pass_rate` holds the
`round(pass_rate, 1)` display value while the status thresholds use the
unrounded rate. -/
structure CheckovSummary where
  passed : Nat
  failed : Nat
  skipped : Nat
  pass_rate : ℚ
  status : Status
deriving DecidableEq

/-- One file of the Checkov loop (lines 165–171). -/
def ckProcessData (acc : Nat × Nat × Nat) (data : PyVal) :
    Except PyErr (Nat × Nat × Nat) := do
  if data.truthy then
    let results ← pyGet data "results" (.dict [])
    let p ← pyGet results "passed_checks" (.list [])
    let pn ← pyLen p
    let f ← pyGet results "failed_checks" (.list [])
    let fn ← pyLen f
    let s ← pyGet results "skipped_checks" (.list [])
    let sn ← pyLen s
    pure (acc.1 + pn, acc.2.1 + fn, acc.2.2 + sn)
  else
    pure acc

/-- Lines 173–185: pass rate and status classification from the counters
(the returned `pass_rate` is the `round(..., 1)` display value, the status
thresholds use the unrounded rate). -/
def checkovSummaryOf (passed failed skipped : Nat) : CheckovSummary :=
  let total := passed + failed + skipped
  let pass_rate : ℚ := if total > 0 then (passed : ℚ) / (total : ℚ) * 100 else 0
  { passed := passed, failed := failed, skipped := skipped,
    pass_rate := round1 pass_rate,
    status :=
      if pass_rate < 70 then .critical
      else if pass_rate < 90 then .warning else .good }

/-- Model of `analyze_checkov_data` (lines 157–185).  The directory is `none` when
`checkov-reports` does not exist, otherwise the contents of its `*.json`
files in glob order. -/
def analyze_checkov_data (dir : Option (List String)) :
    Except PyErr CheckovSummary := do
  let (passed, failed, skipped) ←
    match dir with
    | some files => files.foldlM (fun a c => ckProcessData a (loadOk c)) ((0 : Nat), (0 : Nat), (0 : Nat))
    | _ => pure (0, 0, 0)
  pure (checkovSummaryOf passed failed skipped)

/-- Summary dict returned by `analyze_xeol_data`. -/
structure XeolSummary where
  eol_packages : Nat
  status : Status
deriving DecidableEq

/-- One file of the Xeol loop (lines 194–199): `eol_items.extend(matches)`
additionally requires `matches` to be iterable. -/
def xeolProcessData (acc : Nat) (data : PyVal) : Except PyErr Nat := do
  if data.truthy then
    let matchesV ← pyGet data "matches" (.list [])
    let n ← pyLen matchesV
    let _ ← pyIter matchesV
    pure (acc + n)
  else
    pure acc

/-- Model of `analyze_xeol_data` (lines 187–207). -/
def analyze_xeol_data (dir : Option (List String)) : Except PyErr XeolSummary := do
  let eol ←
    match dir with
    | some files => files.foldlM (fun a c => xeolProcessData a (loadOk c)) (0 : Nat)
    | _ => pure 0
  pure { eol_packages := eol, status := if eol > 0 then .warning else .good }

/-- Mutable state of the SonarQube scan: `coverage` is `none` for the
`"N/A"` sentinel and otherwise holds the value behind the rendered
`f"{...:.1f}%"` string; `tests`, `passed_tests` and `issues` hold the raw
Python values assigned to those variables. -/
structure SonarState where
  coverage : Option ℚ
  tests : PyVal
  passed_tests : PyVal
  issues : PyVal

/-- Initial SonarQube state (lines 217–220). -/
def sonarInit : SonarState := ⟨Option.none, .str "N/A", .str "N/A", .int 0⟩

/-- One measure of the standard-API branch (lines 241–245). -/
def sonarProcessMeasure (st : SonarState) (measure : PyVal) :
    Except PyErr SonarState := do
  let mt ← pyGet measure "metric" PyVal.none
  if pyEq mt (.str "coverage") then
    let v ← pyGet measure "value" (.int 0)
    let q ← pyFloat v
    pure { st with coverage := some (round1 q) }
  else if pyEq mt (.str "tests") then
    let v ← pyGet measure "value" (.str "N/A")
    pure { st with tests := v }
  else
    pure st

/-- The `if data:` body of the SonarQube file loop (lines 227–249): the
three recognized shapes, tried in order with Python's short-circuit
condition evaluation. -/
def sonarProcessData (st : SonarState) (data : PyVal) : Except PyErr SonarState := do
  let c1a ← pyContains data "test_results"
  let c1 ← if c1a then pyContains data "coverage" else pure false
  if c1 then
    let test_results ← pyGetItem data "test_results"
    let coverage_data ← pyGetItem data "coverage"
    let cvRaw ← pyGet coverage_data "statement_coverage" (.int 0)
    let cv ← pyFmtNum cvRaw
    let tests ← pyGet test_results "total_tests" (.str "N/A")
    let passed ← pyGet test_results "passed_tests" (.str "N/A")
    let issues ← pyGet test_results "failed_tests" (.int 0)
    pure { coverage := some (round1 cv), tests := tests, passed_tests := passed, issues := issues }
  else
    let c2a ← pyContains data "component"
    let c2 ←
      if c2a then do
        let comp ← pyGetItem data "component"
        pyContains comp "measures"
      else pure false
    if c2 then
      let comp ← pyGetItem data "component"
      let measures ← pyGetItem comp "measures"
      let items ← pyIter measures
      items.foldlM sonarProcessMeasure st
    else
      let c3 ← pyContains data "issues"
      if c3 then
        let v ← pyGetItem data "issues"
        let n ← pyLen v
        pure { st with issues := .int n }
      else
        pure st

/-- The per-directory file loop (lines 224–251): files with falsy loaded
content are passed over, and the loop `break`s right after the first file
with truthy content — whether or not a recognized shape matched. -/
def sonarScanDir (st : SonarState) : List String → Except PyErr SonarState
  | [] => pure st
  | c :: rest =>
      let data := loadOk c
      if data.truthy then sonarProcessData st data
      else sonarScanDir st rest

/-- Summary dict returned by `analyze_sonarqube_data`. -/
structure SonarSummary where
  coverage : Option ℚ
  tests : PyVal
  passed_tests : PyVal
  issues : PyVal
  has_data : Bool
  status : Status

/-- Model of `analyze_sonarqube_data` (lines 209–275).  The two candidate
directories (`sonar-reports`, then `security-reports/raw-data/SonarQube`)
are `none` when absent; the second is only searched while `coverage` is
still `"N/A"` (line 252). -/
def analyze_sonarqube_data (dir1 dir2 : Option (List String)) :
    Except PyErr SonarSummary := do
  let st1 ←
    match dir1 with
    | some files => sonarScanDir sonarInit files
    | _ => pure sonarInit
  let st2 ←
    if st1.coverage.isSome then pure st1
    else
      match dir2 with
      | some files => sonarScanDir st1 files
      | _ => pure st1
  pure
    { coverage := st2.coverage, tests := st2.tests, passed_tests := st2.passed_tests,
      issues := st2.issues, has_data := st2.coverage.isSome,
      status :=
        match st2.coverage with
        | some cv => if cv ≥ 90 then .good else if cv ≥ 70 then .warning else .critical
        | _ => .warning }

/-- Summary dict returned by `analyze_clamav_data`: `threats` and
`files_scanned` are the Python values placed in the dict (`"N/A"` when no
data was found). -/
structure ClamavSummary where
  threats : PyVal
  files_scanned : PyVal
  has_data : Bool
  status : Status

/-- The JSON-file loop of ClamAV (lines 289–296): `break` right after the
first truthy file; `threats_found += data.get('threats_found', 0)` needs
an int-like value (`TypeError` otherwise). -/
def clamavScanJson (threats : Int) (files : PyVal) :
    List String → Except PyErr (Int × PyVal)
  | [] => pure (threats, files)
  | c :: rest =>
      let data := loadOk c
      if data.truthy then
        match data with
        | .dict kvs => do
            let tf ← pyGet data "threats_found" (.int 0)
            let tn : Int ←
              match tf with
              | .int n => pure n
              | .bool b => pure (if b then 1 else 0)
              | _ => throw PyErr.typeError
            let files :=
              if kvs.any (·.1 == "files_scanned") then (kvs.lookup "files_scanned").getD files
              else files
            pure (threats + tn, files)
        | _ => pure (threats, files)
      else clamavScanJson threats files rest

/-- Model of `analyze_clamav_data` (lines 277–321).  The directory is `none` when
`clamav-reports` does not exist, otherwise the contents of its `*.json`
files and of its `*.log` files; `has_json_data` counts the JSON *files on
disk*, not the values loaded from them.  An unreadable log behaves like a
log without the clean markers (the bare `except: pass`), so log contents
are taken as read. -/
def analyze_clamav_data (dir : Option (List String × List String)) :
    Except PyErr ClamavSummary := do
  match dir with
  | some (jsons, logs) => do
      let has0 : Bool := decide (jsons.length > 0)
      let (t, fs) ← clamavScanJson 0 (.str "N/A") jsons
      let (t, fs, has) :=
        if !has0 then
          match logs with
          | log :: _ =>
              if strContains log "Infected files: 0" || !strContains log "FOUND" then
                ((0 : Int), PyVal.int 299, true)
              else (t, fs, has0)
          | _ => (t, fs, has0)
        else (t, fs, has0)
      pure
        { threats := if has then .int t else .str "N/A",
          files_scanned := if has then fs else .str "N/A",
          has_data := has,
          status := if t > 0 then .critical else if has then .good else .warning }
  | _ =>
      pure
        { threats := .str "N/A", files_scanned := .str "N/A", has_data := false,
          status := .warning }

/-- Summary dict returned by `analyze_helm_data`; `valid` holds the marker
string assigned on line 335 (the literal glyphs of the source). -/
structure HelmSummary where
  resources : PyVal
  valid : String
  has_data : Bool
  status : Status

/-- The Helm file loop (lines 330–336): `break` after the first truthy
file; only dict data updates the fields. -/
def helmScan (resources : PyVal) (valid : String) :
    List String → Except PyErr (PyVal × String)
  | [] => pure (resources, valid)
  | c :: rest =>
      let data := loadOk c
      if data.truthy then
        match data with
        | .dict _ => do
            let r ← pyGet data "resource_count" (.str "N/A")
            let v ← pyGet data "valid" (.bool true)
            pure (r, if v.truthy then "‚úì" else "‚úó")
        | _ => pure (resources, valid)
      else helmScan resources valid rest

/-- Model of `analyze_helm_data` (lines 323–345): the status is `good` exactly when
the directory exists, regardless of its contents. -/
def analyze_helm_data (dir : Option (List String)) : Except PyErr HelmSummary := do
  match dir with
  | some files => do
      let (r, v) ← helmScan (.str "N/A") "N/A" files
      pure { resources := r, valid := v, has_data := true, status := .good }
  | _ =>
      pure { resources := .str "N/A", valid := "N/A", has_data := false, status := .warning }

/-- The rendered overall status values. -/
inductive Overall where
  | GOOD
  | WARNING
  | CRITICAL
deriving DecidableEq

/-- The `statuses` list of lines 361–370: SonarQube, ClamAV and Helm are
replaced by `'good'` when their `has_data` flag is false; the other five
contribute their status directly. -/
def dashboard_statuses (sq : SonarSummary) (th : TrufflehogSummary)
    (cv : ClamavSummary) (hm : HelmSummary) (ck : CheckovSummary)
    (tv : TrivySummary) (gp : GrypeSummary) (xl : XeolSummary) : List Status :=
  [if sq.has_data then sq.status else .good,
    th.status,
    if cv.has_data then cv.status else .good,
    if hm.has_data then hm.status else .good,
    ck.status, tv.status, gp.status, xl.status]

/-- The aggregation of lines 372–383: `'critical' in statuses`, then
`'warning' in statuses`, else `GOOD`. -/
def overall_status (statuses : List Status) : Overall :=
  if statuses.contains .critical then .CRITICAL
  else if statuses.contains .warning then .WARNING
  else .GOOD

/-! Helper lemmas shared across the claim theorems. -/

/-- Status-list membership test of `'critical' in statuses`, as a
propositional-equality `any`. -/
theorem status_contains_eq_any (l : List Status) (s : Status) :
    l.contains s = l.any (· = s) := by
  induction l with
  | nil => rfl
  | cons x xs ih =>
      simp only [List.contains_cons, List.any_cons, ← ih]
      cases x <;> cases s <;> rfl

/-- Spec side of C1: a tool exposing a `has_data` flag contributes `good`
to the vote when the flag is false, its own status otherwise. -/
def specEffective (hasData : Bool) (s : Status) : Status :=
  if hasData then s else .good

/-- Spec side of C1: strict OR-escalation over effective statuses. -/
def specOverall (eff : List Status) : Overall :=
  if eff.any (· = Status.critical) then .CRITICAL
  else if eff.any (· = Status.warning) then .WARNING
  else .GOOD

/-- C1: Aggregation is a strict OR-escalation over the eight effective
statuses — each tool's effective status is `good` when its summary has a
false `has_data` flag (SonarQube, ClamAV, Helm) and its own status field
otherwise; the overall status is CRITICAL if any effective status is
critical, else WARNING if any is warning, else GOOD, for every combination
of the eight summaries. -/
theorem overall_status_strict_or_escalation
    (sq : SonarSummary) (th : TrufflehogSummary) (cv : ClamavSummary)
    (hm : HelmSummary) (ck : CheckovSummary) (tv : TrivySummary)
    (gp : GrypeSummary) (xl : XeolSummary) :
    overall_status (dashboard_statuses sq th cv hm ck tv gp xl) =
      specOverall
        [specEffective sq.has_data sq.status, th.status,
          specEffective cv.has_data cv.status, specEffective hm.has_data hm.status,
          ck.status, tv.status, gp.status, xl.status] := by
  simp only [overall_status, specOverall, dashboard_statuses, specEffective,
    status_contains_eq_any]

/-- Escalation rank of the overall status: GOOD < WARNING < CRITICAL. -/
def overallRank : Overall → Nat
  | .GOOD => 0
  | .WARNING => 1
  | .CRITICAL => 2

/-- The rank never exceeds the CRITICAL rank. -/
theorem overallRank_le_two (o : Overall) : overallRank o ≤ 2 := by
  cases o <;> simp [overallRank]

/-- C8: replacing any single entry of an eight-status vector by `critical`
makes the aggregate CRITICAL, and the aggregate never goes down under that
replacement. -/
theorem overall_status_monotone_escalation (l : List Status) (i : Nat)
    (h8 : l.length = 8) (hi : i < l.length) :
    overall_status (l.set i .critical) = .CRITICAL ∧
      overallRank (overall_status l) ≤
        overallRank (overall_status (l.set i .critical)) := by
  have hlen : i < (l.set i Status.critical).length := by simpa using hi
  have hget : (l.set i Status.critical)[i] = Status.critical := by
    simp [List.getElem_set]
  have hmem : Status.critical ∈ l.set i .critical :=
    List.mem_iff_getElem.mpr ⟨i, hlen, hget⟩
  have hcont : (l.set i .critical).contains .critical = true :=
    List.elem_eq_true_of_mem hmem
  have hcrit : overall_status (l.set i .critical) = .CRITICAL := by
    unfold overall_status
    rw [hcont]
    simp
  exact ⟨hcrit, by simpa [hcrit] using overallRank_le_two (overall_status l)⟩

/-- Witness for C8 at a concrete eight-status vector. -/
theorem overall_status_monotone_escalation_witness :
    overall_status ([Status.good, .warning, .good, .good, .good, .good, .good,
        .good].set 1 .critical) = .CRITICAL ∧
      overallRank (overall_status [Status.good, .warning, .good, .good, .good,
          .good, .good, .good]) ≤
        overallRank (overall_status ([Status.good, .warning, .good, .good, .good,
            .good, .good, .good].set 1 .critical)) :=
  overall_status_monotone_escalation _ 1 rfl (by simp)

/-- C2 counterexample: on a file readable only by another user, `open`
raises `PermissionError`, which is not in the loader's `except` clause
(line 41 catches `FileNotFoundError` only) — the exception propagates
past the loader's boundary instead of becoming the no-value result. -/
theorem load_json_safely_permission_error_raises :
    load_json_safely ReadOutcome.permissionError =
      Except.error PyErr.permissionError := rfl

/-- C2 amended: the loader never raises on a readable file or a missing
file — it returns the parsed (possibly no-value) result for the former and
the no-value result for the latter — but a permission error is not caught
and propagates to the caller. -/
theorem load_json_safely_boundary :
    (∀ raw : String,
        load_json_safely (ReadOutcome.ok raw) = Except.ok (load_content (pyStrip raw))) ∧
      load_json_safely ReadOutcome.fileNotFound = Except.ok PyVal.none ∧
      load_json_safely ReadOutcome.permissionError =
        Except.error PyErr.permissionError :=
  ⟨fun _ => rfl, rfl, rfl⟩

/-- Folding the JSONL collection loop from any accumulator appends exactly
the parsed non-blank lines, in order. -/
theorem jsonl_foldl_eq_filterMap (lines : List String) :
    ∀ acc : List PyVal,
      lines.foldl
        (fun acc line =>
          if pyStrip line = "" then acc
          else
            match json_loads line with
            | some obj => acc ++ [obj]
            | _ => acc)
        acc =
      acc ++ lines.filterMap
        (fun line => if pyStrip line = "" then Option.none else json_loads line) := by
  induction lines with
  | nil => simp
  | cons x xs ih =>
      intro acc
      by_cases hx : pyStrip x = ""
      · simp [hx, ih]
      · cases hjx : json_loads x <;> simp [hx, hjx, ih]

/-- C3: whenever whole-document parsing fails, the loader returns exactly
the sequence of lines that parse as JSON, in their original order, with
every unparsable line dropped; if no line parses (including empty input)
it returns the no-value result, never an empty list. -/
theorem load_json_safely_jsonl_exact (content : String)
    (hfail : json_loads content = Option.none) :
    jsonlResults content =
        (splitCh '\n' content).filterMap
          (fun line => if pyStrip line = "" then Option.none else json_loads line) ∧
      (jsonlResults content ≠ [] →
        load_content content = PyVal.list (jsonlResults content)) ∧
      (jsonlResults content = [] → load_content content = PyVal.none) := by
  refine ⟨jsonl_foldl_eq_filterMap _ [], ?_, ?_⟩ <;>
    · intro h
      simp [load_content, hfail, List.isEmpty_iff, h]

/-- Witness for C3: a three-line input whose first and third lines parse
and whose middle line does not. -/
theorem load_json_safely_jsonl_exact_witness :
    json_loads "[1]\nbad\n2" = Option.none ∧
      load_content "[1]\nbad\n2" = PyVal.list [PyVal.list [PyVal.int 1], PyVal.int 2] := by
  have h := load_json_safely_jsonl_exact "[1]\nbad\n2" rfl
  have hres : jsonlResults "[1]\nbad\n2" = [PyVal.list [PyVal.int 1], PyVal.int 2] := rfl
  refine ⟨rfl, ?_⟩
  rw [← hres]
  exact h.2.1 (by rw [hres]; exact List.cons_ne_nil _ _)

/-- C6 counterexample: the well-formed single JSON document `null` parses
to Python `None`, so the loader's return value is the very no-value result
it uses for an absent file — the two are not distinguishable. -/
theorem load_json_safely_null_doc_indistinguishable :
    json_loads "null" = some PyVal.none ∧
      load_content "null" = PyVal.none ∧
      load_json_safely ReadOutcome.fileNotFound = Except.ok PyVal.none :=
  ⟨rfl, rfl, rfl⟩

/-- C6 amended: for every well-formed single-document JSON input the
loader returns the parsed value itself (no loss), and that value is
distinguishable from the no-value result except for the document `null`,
whose parse *is* the no-value result. -/
theorem load_json_safely_single_doc_faithful (content : String) (v : PyVal)
    (h : json_loads content = some v) :
    load_content content = v ∧
      (v ≠ PyVal.none → load_content content ≠ PyVal.none) := by
  have hv : load_content content = v := by simp [load_content, h]
  exact ⟨hv, fun hne => hv ▸ hne⟩

/-- Witness for C6 at a concrete object document. -/
theorem load_json_safely_single_doc_faithful_witness :
    load_content "\x7b\"a\": [1]\x7d" = PyVal.dict [("a", PyVal.list [PyVal.int 1])] ∧
      load_content "\x7b\"a\": [1]\x7d" ≠ PyVal.none := by
  have h := load_json_safely_single_doc_faithful "\x7b\"a\": [1]\x7d"
    (PyVal.dict [("a", PyVal.list [PyVal.int 1])]) rfl
  exact ⟨h.1, h.2 (by simp)⟩

/-- C4 counterexample: when `checkov-reports` does not exist the counters
stay zero, so `pass_rate = 0 < 70` and the returned "no data" status is
`critical`, not a warning/good no-data status. -/
theorem analyze_checkov_data_missing_dir_critical :
    analyze_checkov_data Option.none =
      Except.ok
        { passed := 0, failed := 0, skipped := 0, pass_rate := 0,
          status := Status.critical } := by
  have h : analyze_checkov_data Option.none = .ok (checkovSummaryOf 0 0 0) := rfl
  rw [h]
  congr 1
  unfold checkovSummaryOf round1
  norm_num

/-- C4 amended: on a missing report directory, seven of the eight
normalizers return default/zero metrics with a no-data status of `good` or
`warning`; the IaC policy normalizer also returns zero metrics, but its
zero pass rate falls below the 70% threshold and yields `critical`. -/
theorem missing_dir_no_data_statuses :
    analyze_trufflehog_data Option.none = Except.ok ⟨0, 0, 0, 0, .good⟩ ∧
      analyze_grype_data Option.none = Except.ok ⟨0, ⟨0, 0, 0, 0⟩, 0, .good⟩ ∧
      analyze_trivy_data Option.none = Except.ok ⟨0, ⟨0, 0, 0, 0⟩, 0, .good⟩ ∧
      analyze_xeol_data Option.none = Except.ok ⟨0, .good⟩ ∧
      analyze_sonarqube_data Option.none Option.none =
        Except.ok ⟨Option.none, .str "N/A", .str "N/A", .int 0, false, .warning⟩ ∧
      analyze_clamav_data Option.none =
        Except.ok ⟨.str "N/A", .str "N/A", false, .warning⟩ ∧
      analyze_helm_data Option.none =
        Except.ok ⟨.str "N/A", "N/A", false, .warning⟩ ∧
      analyze_checkov_data Option.none = Except.ok (checkovSummaryOf 0 0 0) ∧
      (checkovSummaryOf 0 0 0).status = Status.critical := by
  refine ⟨rfl, rfl, rfl, rfl, rfl, rfl, rfl, rfl, ?_⟩
  unfold checkovSummaryOf
  norm_num

/-- C5 counterexample: a first file whose content is truthy but matches
none of the three recognized shapes stops the directory scan — a
recognized issues-list file behind it is never consulted (alone, that
second file sets `issues = 2`). -/
theorem sonarqube_unrecognized_first_file_stops_scan :
    (analyze_sonarqube_data
          (some ["\x7b\"foo\": 1\x7d", "\x7b\"issues\": [1, 2]\x7d"]) Option.none).map
        SonarSummary.issues = Except.ok (PyVal.int 0) ∧
      (analyze_sonarqube_data
            (some ["\x7b\"issues\": [1, 2]\x7d"]) Option.none).map
          SonarSummary.issues = Except.ok (PyVal.int 2) :=
  ⟨rfl, rfl⟩

/-- C5 amended: within a searched directory, files whose loaded content is
falsy are passed over, and the first file with truthy content alone
determines the outcome of the scan — everything after it is ignored, even
when that file matches none of the recognized shapes. -/
theorem sonarqube_first_truthy_file_wins (st : SonarState) (pre : List String)
    (c : String) (post : List String)
    (hpre : ∀ p ∈ pre, (loadOk p).truthy = false)
    (hc : (loadOk c).truthy = true) :
    sonarScanDir st (pre ++ c :: post) = sonarProcessData st (loadOk c) := by
  induction pre with
  | nil => simp [sonarScanDir, hc]
  | cons x xs ih =>
      have hx := hpre x (by simp)
      simp only [List.cons_append, sonarScanDir, hx]
      simpa using ih (fun p hp => hpre p (List.mem_cons_of_mem _ hp))

/-- Witness for C5 at a concrete directory: two skipped files, then a
truthy issues-list file, then an ignored trailing file. -/
theorem sonarqube_first_truthy_file_wins_witness :
    (∀ p ∈ ["", "bad"], (loadOk p).truthy = false) ∧
      (loadOk "\x7b\"issues\": [1]\x7d").truthy = true ∧
      sonarScanDir sonarInit ["", "bad", "\x7b\"issues\": [1]\x7d", "\x7b\"issues\": [1, 2]\x7d"] =
        sonarProcessData sonarInit (loadOk "\x7b\"issues\": [1]\x7d") := by
  have hpre : ∀ p ∈ ["", "bad"], (loadOk p).truthy = false := by
    intro p hp
    simp only [List.mem_cons, List.not_mem_nil, or_false] at hp
    rcases hp with rfl | rfl <;> rfl
  refine ⟨hpre, rfl, ?_⟩
  exact sonarqube_first_truthy_file_wins sonarInit ["", "bad"] _ _ hpre rfl

/-- A step that is a no-op on one element can be dropped from a monadic
fold over the `Except` monad. -/
theorem foldlM_skip {α β : Type} (f : α → β → Except PyErr α) (c : β)
    (hstep : ∀ a, f a c = pure a) (pre post : List β) :
    ∀ a : α, (pre ++ c :: post).foldlM f a = (pre ++ post).foldlM f a := by
  induction pre with
  | nil => intro a; simp [List.foldlM_cons, hstep]
  | cons x xs ih => intro a; simp only [List.cons_append, List.foldlM_cons, ih]

/-- A file with falsy loaded content is passed over by the SonarQube
break-style directory scan. -/
theorem sonarScanDir_skip (c : String) (h : (loadOk c).truthy = false)
    (pre post : List String) :
    ∀ st, sonarScanDir st (pre ++ c :: post) = sonarScanDir st (pre ++ post) := by
  induction pre with
  | nil => intro st; simp [sonarScanDir, h]
  | cons x xs ih =>
      intro st
      simp only [List.cons_append, sonarScanDir]
      by_cases hx : (loadOk x).truthy <;> simp [hx, ih]

/-- A file with falsy loaded content is passed over by the ClamAV
break-style JSON loop (its counters are unaffected). -/
theorem clamavScanJson_skip (c : String) (h : (loadOk c).truthy = false)
    (pre post : List String) :
    ∀ (t : Int) (fs : PyVal),
      clamavScanJson t fs (pre ++ c :: post) = clamavScanJson t fs (pre ++ post) := by
  induction pre with
  | nil => intro t fs; simp [clamavScanJson, h]
  | cons x xs ih =>
      intro t fs
      simp only [List.cons_append, clamavScanJson]
      by_cases hx : (loadOk x).truthy <;> simp [hx, ih]

/-- A file with falsy loaded content is passed over by the Helm
break-style loop. -/
theorem helmScan_skip (c : String) (h : (loadOk c).truthy = false)
    (pre post : List String) :
    ∀ (r : PyVal) (v : String),
      helmScan r v (pre ++ c :: post) = helmScan r v (pre ++ post) := by
  induction pre with
  | nil => intro r v; simp [helmScan, h]
  | cons x xs ih =>
      intro r v
      simp only [List.cons_append, helmScan]
      by_cases hx : (loadOk x).truthy <;> simp [hx, ih]

/-- C9 counterexample: ClamAV's `has_json_data` flag counts JSON files on
disk, not loaded values, so a directory holding one file whose whole
content is the falsy value `null` reports data present and status `good`,
while the same directory without the file reports no data and `warning`. -/
theorem clamav_falsy_json_file_differs_from_absent :
    analyze_clamav_data (some (["null"], [])) =
        Except.ok ⟨PyVal.int 0, PyVal.str "N/A", true, Status.good⟩ ∧
      analyze_clamav_data (some ([], [])) =
        Except.ok ⟨PyVal.str "N/A", PyVal.str "N/A", false, Status.warning⟩ ∧
      (Except.ok (⟨PyVal.int 0, PyVal.str "N/A", true, Status.good⟩ : ClamavSummary) :
          Except PyErr ClamavSummary) ≠
        Except.ok ⟨PyVal.str "N/A", PyVal.str "N/A", false, Status.warning⟩ := by
  refine ⟨rfl, rfl, fun hcontra => ?_⟩
  simp [ClamavSummary.mk.injEq] at hcontra

/-- C9 amended: every normalizer tests the loaded value for truthiness
before using it, so a file whose content parses to a falsy value
contributes nothing to any counter: inserting such a file anywhere leaves
seven of the eight summaries (and ClamAV's scan counters) unchanged.  Only
ClamAV's `has_json_data` flag — which counts files on disk, not loaded
values — still sees the file, so ClamAV does not treat it like an absent
file. -/
theorem falsy_loaded_file_contributes_nothing (c : String)
    (h : (loadOk c).truthy = false) (pre post : List String) :
    analyze_trufflehog_data (some (pre ++ c :: post)) =
        analyze_trufflehog_data (some (pre ++ post)) ∧
      (∀ sbom : Nat, analyze_grype_data (some (pre ++ c :: post, sbom)) =
        analyze_grype_data (some (pre ++ post, sbom))) ∧
      analyze_trivy_data (some (pre ++ c :: post)) =
        analyze_trivy_data (some (pre ++ post)) ∧
      analyze_checkov_data (some (pre ++ c :: post)) =
        analyze_checkov_data (some (pre ++ post)) ∧
      analyze_xeol_data (some (pre ++ c :: post)) =
        analyze_xeol_data (some (pre ++ post)) ∧
      (∀ d2, analyze_sonarqube_data (some (pre ++ c :: post)) d2 =
        analyze_sonarqube_data (some (pre ++ post)) d2) ∧
      (∀ d1, analyze_sonarqube_data d1 (some (pre ++ c :: post)) =
        analyze_sonarqube_data d1 (some (pre ++ post))) ∧
      analyze_helm_data (some (pre ++ c :: post)) =
        analyze_helm_data (some (pre ++ post)) ∧
      (∀ (t : Int) (fs : PyVal), clamavScanJson t fs (pre ++ c :: post) =
        clamavScanJson t fs (pre ++ post)) := by
  have hth := foldlM_skip (fun a c' => thProcessData a (loadOk c')) c
    (fun a => by simp [thProcessData, h]) pre post
  have hgp := foldlM_skip (fun a c' => grypeProcessData a (loadOk c')) c
    (fun a => by simp [grypeProcessData, h]) pre post
  have htv := foldlM_skip (fun a c' => trivyProcessData a (loadOk c')) c
    (fun a => by simp [trivyProcessData, h]) pre post
  have hck := foldlM_skip (fun a c' => ckProcessData a (loadOk c')) c
    (fun a => by simp [ckProcessData, h]) pre post
  have hxl := foldlM_skip (fun a c' => xeolProcessData a (loadOk c')) c
    (fun a => by simp [xeolProcessData, h]) pre post
  have hsq := sonarScanDir_skip c h pre post
  have hcl := clamavScanJson_skip c h pre post
  have hhm := helmScan_skip c h pre post
  refine ⟨?_, ?_, ?_, ?_, ?_, ?_, ?_, ?_, hcl⟩
  · simp only [analyze_trufflehog_data, hth]
  · intro sbom; simp only [analyze_grype_data, hgp]
  · simp only [analyze_trivy_data, htv]
  · simp only [analyze_checkov_data, hck]
  · simp only [analyze_xeol_data, hxl]
  · intro d2; simp only [analyze_sonarqube_data, hsq]
  · intro d1; simp only [analyze_sonarqube_data, hsq]
  · simp only [analyze_helm_data, hhm]

/-- Witness for C9: inserting a `null`-content file after one other file
leaves the secret-scan summary unchanged. -/
theorem falsy_loaded_file_contributes_nothing_witness :
    (loadOk "null").truthy = false ∧
      analyze_trufflehog_data (some (["x"] ++ "null" :: [])) =
        analyze_trufflehog_data (some (["x"] ++ ([] : List String))) :=
  ⟨rfl, (falsy_loaded_file_contributes_nothing "null" rfl ["x"] []).1⟩

/-- In the `Except PyErr` monad `pure` is `Except.ok`. -/
@[simp] theorem except_pure_def {α : Type} (a : α) :
    (pure a : Except PyErr α) = Except.ok a := rfl

/-- A bind on a successful `Except` computation applies the continuation. -/
@[simp] theorem except_ok_bind {α β : Type} (a : α) (f : α → Except PyErr β) :
    (Except.ok a >>= f) = f a := rfl

/-- A bind on a failed `Except` computation keeps the error. -/
@[simp] theorem except_error_bind {α β : Type} (e : PyErr) (f : α → Except PyErr β) :
    ((Except.error e : Except PyErr α) >>= f) = Except.error e := rfl

/-- A successful bind decomposes into a successful head and continuation. -/
theorem except_bind_ok {α β : Type} {x : Except PyErr α} {f : α → Except PyErr β}
    {b : β} (h : (x >>= f) = .ok b) : ∃ a, x = .ok a ∧ f a = .ok b := by
  cases x with
  | ok a => exact ⟨a, rfl, h⟩
  | error e => simp at h

/-- Spec side of C7: the number of findings one loaded file value
contributes — its qualifying entries if it is a list, one if it is itself
a qualifying object, nothing if it is falsy or anything else. -/
def fileFindingCount (d : PyVal) : Nat :=
  if d.truthy then
    match d with
    | .list es => es.countP (fun e => isFinding e)
    | _ => if isFinding d then 1 else 0
  else 0

/-- One entry moves `total` (and `verified + unverified`) up by one
exactly when the entry is a qualifying finding. -/
theorem thProcessEntry_counts (acc acc' : THAcc) (e : PyVal)
    (h : thProcessEntry acc e = .ok acc') :
    acc'.total = acc.total + (if isFinding e then 1 else 0) ∧
      acc'.verified + acc'.unverified =
        acc.verified + acc.unverified + (if isFinding e then 1 else 0) := by
  by_cases hf : isFinding e
  · cases e with
    | dict kvs =>
        simp only [thProcessEntry, hf, if_true, pyGet, except_ok_bind] at h
        by_cases hv : (((kvs.lookup "Verified").getD (PyVal.bool false))).truthy <;>
          by_cases hd : pyHashable (((kvs.lookup "DetectorName").getD (PyVal.str "Unknown"))) <;>
            simp [hv, hd] at h <;> subst h <;> simp [hf] <;> omega
    | none => simp [isFinding] at hf
    | bool b => simp [isFinding] at hf
    | int n => simp [isFinding] at hf
    | str s => simp [isFinding] at hf
    | list xs => simp [isFinding] at hf
  · simp only [thProcessEntry, hf, if_false, Bool.false_eq_true, ite_false,
      except_pure_def, Except.ok.injEq] at h
    subst h
    simp [hf]

/-- Folding the entry loop counts exactly the qualifying entries. -/
theorem thFold_counts (es : List PyVal) :
    ∀ acc acc', es.foldlM thProcessEntry acc = .ok acc' →
      acc'.total = acc.total + es.countP (fun e => isFinding e) ∧
        acc'.verified + acc'.unverified =
          acc.verified + acc.unverified + es.countP (fun e => isFinding e) := by
  induction es with
  | nil =>
      intro acc acc' h
      simp only [List.foldlM_nil, except_pure_def, Except.ok.injEq] at h
      subst h
      simp
  | cons x xs ih =>
      intro acc acc' h
      rw [List.foldlM_cons] at h
      obtain ⟨a1, ha1, h⟩ := except_bind_ok h
      have h1 := thProcessEntry_counts acc a1 x ha1
      have h2 := ih a1 acc' h
      rw [List.countP_cons]
      by_cases hx : isFinding x <;> simp [hx] at h1 ⊢ <;> omega

/-- One file moves the counters up by its finding count. -/
theorem thProcessData_counts (d : PyVal) (acc acc' : THAcc)
    (h : thProcessData acc d = .ok acc') :
    acc'.total = acc.total + fileFindingCount d ∧
      acc'.verified + acc'.unverified =
        acc.verified + acc.unverified + fileFindingCount d := by
  by_cases ht : d.truthy
  · cases d with
    | list es =>
        simp only [thProcessData, ht, if_true] at h
        simpa [fileFindingCount, ht] using thFold_counts es acc acc' h
    | none => simp [PyVal.truthy] at ht
    | bool b =>
        simp only [thProcessData, ht, if_true] at h
        simpa [fileFindingCount, ht] using thProcessEntry_counts acc acc' _ h
    | int n =>
        simp only [thProcessData, ht, if_true] at h
        simpa [fileFindingCount, ht] using thProcessEntry_counts acc acc' _ h
    | str s =>
        simp only [thProcessData, ht, if_true] at h
        simpa [fileFindingCount, ht] using thProcessEntry_counts acc acc' _ h
    | dict kvs =>
        simp only [thProcessData, ht, if_true] at h
        simpa [fileFindingCount, ht] using thProcessEntry_counts acc acc' _ h
  · simp only [thProcessData, ht, Bool.false_eq_true, if_false, except_pure_def,
      Except.ok.injEq] at h
    subst h
    simp [fileFindingCount, ht]

/-- Folding the file loop sums the finding counts of the files. -/
theorem thFilesFold_counts (files : List String) :
    ∀ acc acc',
      files.foldlM (fun a c => thProcessData a (loadOk c)) acc = .ok acc' →
      acc'.total =
          acc.total + (files.map (fun f => fileFindingCount (loadOk f))).sum ∧
        acc'.verified + acc'.unverified =
          acc.verified + acc.unverified +
            (files.map (fun f => fileFindingCount (loadOk f))).sum := by
  induction files with
  | nil =>
      intro acc acc' h
      simp only [List.foldlM_nil, except_pure_def, Except.ok.injEq] at h
      subst h
      simp
  | cons x xs ih =>
      intro acc acc' h
      rw [List.foldlM_cons] at h
      obtain ⟨a1, ha1, h⟩ := except_bind_ok h
      have h1 := thProcessData_counts (loadOk x) acc a1 ha1
      have h2 := ih a1 acc' h
      simp only [List.map_cons, List.sum_cons]
      omega

/-- The secret-scan file of spec Scenario 1: one object carrying the
detector-name, raw-match and source-location fields with `Verified: true`. -/
def thScenarioFile : String :=
  "\x7b\"DetectorName\": \"AWS\", \"Raw\": \"k\", \"SourceMetadata\": \x7b\"Data\": 1\x7d, \"Verified\": true\x7d"

/-- C7: the secret-scan normalizer counts an entry as a finding exactly
when it is an object carrying `DetectorName`, `Raw` and `SourceMetadata`
(summed over all files); the status is `critical` iff verified>0, else
`warning` iff unverified>0, else `good`; and on a directory holding one
file with a single such object with `Verified: true` the summary is
total=1, verified=1, unverified=0, status=`critical`. -/
theorem trufflehog_finding_recognition_and_status (files : List String)
    (s : TrufflehogSummary)
    (h : analyze_trufflehog_data (some files) = .ok s) :
    s.total = (files.map (fun f => fileFindingCount (loadOk f))).sum ∧
      s.verified + s.unverified = s.total ∧
      (s.status = .critical ↔ 0 < s.verified) ∧
      (s.status = .warning ↔ s.verified = 0 ∧ 0 < s.unverified) ∧
      (s.status = .good ↔ s.verified = 0 ∧ s.unverified = 0) ∧
      analyze_trufflehog_data (some [thScenarioFile]) =
        Except.ok ⟨1, 1, 0, 1, .critical⟩ := by
  unfold analyze_trufflehog_data at h
  obtain ⟨acc, hacc, h⟩ := except_bind_ok h
  simp only [except_pure_def, Except.ok.injEq] at h
  subst h
  dsimp only
  obtain ⟨hct, hcv⟩ := thFilesFold_counts files ⟨0, 0, 0, []⟩ acc hacc
  dsimp only at hct hcv
  refine ⟨by omega, by omega, ?_, ?_, ?_, rfl⟩ <;>
    · by_cases hv : 0 < acc.verified <;> by_cases hu : 0 < acc.unverified <;>
        simp [hv, hu, Nat.pos_iff_ne_zero] <;> omega

/-- Witness for C7 at the Scenario-1 directory. -/
theorem trufflehog_finding_recognition_and_status_witness :
    (⟨1, 1, 0, 1, .critical⟩ : TrufflehogSummary).total =
      ([thScenarioFile].map (fun f => fileFindingCount (loadOk f))).sum :=
  (trufflehog_finding_recognition_and_status [thScenarioFile] _ rfl).1

/-- Sum of the four severity-histogram buckets. -/
def sevTotal (sc : SevCounts) : Nat := sc.critical + sc.high + sc.medium + sc.low

/-- One Grype match raises the bucket sum by at most one. -/
theorem grypeProcessMatch_bound (sc sc' : SevCounts) (m : PyVal)
    (h : grypeProcessMatch sc m = .ok sc') :
    sevTotal sc' ≤ sevTotal sc + 1 := by
  unfold grypeProcessMatch at h
  obtain ⟨v, hv, h⟩ := except_bind_ok h
  obtain ⟨sr, hsr, h⟩ := except_bind_ok h
  cases sr <;> simp at h
  subst h
  split <;> simp [sevTotal] <;> omega

/-- Folding the match loop raises the bucket sum by at most the number of
iterated matches. -/
theorem grypeFoldMatches_bound (items : List PyVal) :
    ∀ sc sc', items.foldlM grypeProcessMatch sc = .ok sc' →
      sevTotal sc' ≤ sevTotal sc + items.length := by
  induction items with
  | nil =>
      intro sc sc' h
      simp only [List.foldlM_nil, except_pure_def, Except.ok.injEq] at h
      subst h
      simp
  | cons x xs ih =>
      intro sc sc' h
      rw [List.foldlM_cons] at h
      obtain ⟨sc1, hsc1, h⟩ := except_bind_ok h
      have h1 := grypeProcessMatch_bound sc sc1 x hsc1
      have h2 := ih sc1 sc' h
      simp only [List.length_cons]
      omega

/-- The operations `len(v)` and iteration of `v` agree on the element count. -/
theorem pyIter_length (v : PyVal) (n : Nat) (items : List PyVal)
    (hn : pyLen v = .ok n) (hi : pyIter v = .ok items) : items.length = n := by
  cases v <;> simp [pyLen, pyIter] at hn hi <;> simp [← hn, ← hi]

/-- One Grype file keeps `sevTotal − total` non-increasing: the total grows
by `len(matches)` while the buckets grow by at most that much. -/
theorem grypeProcessData_bound (d : PyVal) (t t' : Nat) (sc sc' : SevCounts)
    (h : grypeProcessData (t, sc) d = .ok (t', sc')) :
    sevTotal sc' + t ≤ sevTotal sc + t' := by
  by_cases ht : d.truthy
  · simp only [grypeProcessData, ht, if_true] at h
    obtain ⟨mv, hmv, h⟩ := except_bind_ok h
    obtain ⟨n, hn, h⟩ := except_bind_ok h
    obtain ⟨items, hitems, h⟩ := except_bind_ok h
    obtain ⟨sc2, hsc2, h⟩ := except_bind_ok h
    simp only [except_pure_def, Except.ok.injEq, Prod.mk.injEq] at h
    obtain ⟨ht', hsc'⟩ := h
    subst ht'
    subst hsc'
    have hlen := pyIter_length mv n items hn hitems
    have hb := grypeFoldMatches_bound items sc sc2 hsc2
    omega
  · simp only [grypeProcessData, ht, Bool.false_eq_true, if_false, except_pure_def,
      Except.ok.injEq, Prod.mk.injEq] at h
    obtain ⟨ht', hsc'⟩ := h
    subst ht'
    subst hsc'
    omega

/-- The Grype file fold keeps the buckets bounded by the total. -/
theorem grypeFilesFold_bound (files : List String) :
    ∀ (t t' : Nat) (sc sc' : SevCounts),
      files.foldlM (fun a c => grypeProcessData a (loadOk c)) (t, sc) = .ok (t', sc') →
      sevTotal sc' + t ≤ sevTotal sc + t' := by
  induction files with
  | nil =>
      intro t t' sc sc' h
      simp only [List.foldlM_nil, except_pure_def, Except.ok.injEq, Prod.mk.injEq] at h
      obtain ⟨ht, hsc⟩ := h
      subst ht
      subst hsc
      omega
  | cons x xs ih =>
      intro t t' sc sc' h
      rw [List.foldlM_cons] at h
      obtain ⟨⟨t1, sc1⟩, h1, h⟩ := except_bind_ok h
      have hb1 := grypeProcessData_bound (loadOk x) t t1 sc sc1 h1
      have hb2 := ih t1 t' sc1 sc' h
      omega

/-- One Trivy vulnerability raises the bucket sum by at most one. -/
theorem trivyProcessVuln_bound (sc sc' : SevCounts) (vuln : PyVal)
    (h : trivyProcessVuln sc vuln = .ok sc') :
    sevTotal sc' ≤ sevTotal sc + 1 := by
  unfold trivyProcessVuln at h
  obtain ⟨sv, hsv, h⟩ := except_bind_ok h
  by_cases hh : pyHashable sv <;> simp [hh] at h
  subst h
  split_ifs <;> simp [sevTotal] <;> omega

/-- Folding the vulnerability loop raises the bucket sum by at most the
number of iterated vulnerabilities. -/
theorem trivyFoldVulns_bound (items : List PyVal) :
    ∀ sc sc', items.foldlM trivyProcessVuln sc = .ok sc' →
      sevTotal sc' ≤ sevTotal sc + items.length := by
  induction items with
  | nil =>
      intro sc sc' h
      simp only [List.foldlM_nil, except_pure_def, Except.ok.injEq] at h
      subst h
      simp
  | cons x xs ih =>
      intro sc sc' h
      rw [List.foldlM_cons] at h
      obtain ⟨sc1, hsc1, h⟩ := except_bind_ok h
      have h1 := trivyProcessVuln_bound sc sc1 x hsc1
      have h2 := ih sc1 sc' h
      simp only [List.length_cons]
      omega

/-- One Trivy scan result keeps `sevTotal − total` non-increasing. -/
theorem trivyProcessResult_bound (r : PyVal) (t t' : Nat) (sc sc' : SevCounts)
    (h : trivyProcessResult (t, sc) r = .ok (t', sc')) :
    sevTotal sc' + t ≤ sevTotal sc + t' := by
  unfold trivyProcessResult at h
  obtain ⟨vv, hvv, h⟩ := except_bind_ok h
  obtain ⟨n, hn, h⟩ := except_bind_ok h
  obtain ⟨items, hitems, h⟩ := except_bind_ok h
  obtain ⟨sc2, hsc2, h⟩ := except_bind_ok h
  simp only [except_pure_def, Except.ok.injEq, Prod.mk.injEq] at h
  obtain ⟨ht', hsc'⟩ := h
  subst ht'
  subst hsc'
  have hlen := pyIter_length vv n items hn hitems
  have hb := trivyFoldVulns_bound items sc sc2 hsc2
  omega

/-- Folding the result loop keeps `sevTotal − total` non-increasing. -/
theorem trivyFoldResults_bound (items : List PyVal) :
    ∀ (t t' : Nat) (sc sc' : SevCounts),
      items.foldlM trivyProcessResult (t, sc) = .ok (t', sc') →
      sevTotal sc' + t ≤ sevTotal sc + t' := by
  induction items with
  | nil =>
      intro t t' sc sc' h
      simp only [List.foldlM_nil, except_pure_def, Except.ok.injEq, Prod.mk.injEq] at h
      obtain ⟨ht, hsc⟩ := h
      subst ht
      subst hsc
      omega
  | cons x xs ih =>
      intro t t' sc sc' h
      rw [List.foldlM_cons] at h
      obtain ⟨⟨t1, sc1⟩, h1, h⟩ := except_bind_ok h
      have hb1 := trivyProcessResult_bound x t t1 sc sc1 h1
      have hb2 := ih t1 t' sc1 sc' h
      omega

/-- One Trivy file keeps `sevTotal − total` non-increasing. -/
theorem trivyProcessData_bound (d : PyVal) (g t : Nat) (sc : SevCounts)
    (g' t' : Nat) (sc' : SevCounts)
    (h : trivyProcessData (g, t, sc) d = .ok (g', t', sc')) :
    sevTotal sc' + t ≤ sevTotal sc + t' := by
  by_cases ht : d.truthy
  · simp only [trivyProcessData, ht, if_true] at h
    obtain ⟨rv, hrv, h⟩ := except_bind_ok h
    obtain ⟨items, hitems, h⟩ := except_bind_ok h
    obtain ⟨⟨t2, sc2⟩, h2, h⟩ := except_bind_ok h
    simp only [except_pure_def, Except.ok.injEq, Prod.mk.injEq] at h
    obtain ⟨_, ht', hsc'⟩ := h
    subst ht'
    subst hsc'
    exact trivyFoldResults_bound items _ _ _ _ h2
  · simp only [trivyProcessData, ht, Bool.false_eq_true, if_false, except_pure_def,
      Except.ok.injEq, Prod.mk.injEq] at h
    obtain ⟨_, ht', hsc'⟩ := h
    subst ht'
    subst hsc'
    omega

/-- The Trivy file fold keeps the buckets bounded by the total. -/
theorem trivyFilesFold_bound (files : List String) :
    ∀ (g t : Nat) (sc : SevCounts) (g' t' : Nat) (sc' : SevCounts),
      files.foldlM (fun a c => trivyProcessData a (loadOk c)) (g, t, sc) =
          .ok (g', t', sc') →
      sevTotal sc' + t ≤ sevTotal sc + t' := by
  induction files with
  | nil =>
      intro g t sc g' t' sc' h
      simp only [List.foldlM_nil, except_pure_def, Except.ok.injEq, Prod.mk.injEq] at h
      obtain ⟨_, ht, hsc⟩ := h
      subst ht
      subst hsc
      omega
  | cons x xs ih =>
      intro g t sc g' t' sc' h
      rw [List.foldlM_cons] at h
      obtain ⟨⟨g1, t1, sc1⟩, h1, h⟩ := except_bind_ok h
      have hb1 := trivyProcessData_bound (loadOk x) g t sc g1 t1 sc1 h1
      have hb2 := ih g1 t1 sc1 g' t' sc' h
      omega

/-- C10: in every summary the SBOM vulnerability normalizer or the
container vulnerability normalizer produces, the total count is at least
the sum of the four severity buckets (matches with untracked severities
increment the total but no bucket). -/
theorem severity_buckets_bounded_by_total :
    (∀ (dir : Option (List String × Nat)) (s : GrypeSummary),
        analyze_grype_data dir = .ok s → sevTotal s.severity_counts ≤ s.total) ∧
      (∀ (dir : Option (List String)) (s : TrivySummary),
        analyze_trivy_data dir = .ok s → sevTotal s.severity_counts ≤ s.total) := by
  constructor
  · intro dir s h
    match dir with
    | Option.none =>
        simp only [analyze_grype_data, except_ok_bind, except_pure_def,
          Except.ok.injEq] at h
        subst h
        simp [sevTotal]
    | some (files, sbom) =>
        simp only [analyze_grype_data] at h
        obtain ⟨⟨t0, sc0⟩, hfold, h⟩ := except_bind_ok h
        simp only [except_ok_bind, except_pure_def, Except.ok.injEq] at h
        subst h
        dsimp only
        have := grypeFilesFold_bound files 0 t0 ⟨0, 0, 0, 0⟩ sc0 hfold
        simpa [sevTotal] using this
  · intro dir s h
    match dir with
    | Option.none =>
        simp only [analyze_trivy_data, except_ok_bind, except_pure_def,
          Except.ok.injEq] at h
        subst h
        simp [sevTotal]
    | some files =>
        simp only [analyze_trivy_data] at h
        obtain ⟨⟨g, t, sc⟩, hfold, h⟩ := except_bind_ok h
        simp only [except_pure_def, Except.ok.injEq] at h
        subst h
        dsimp only
        have := trivyFilesFold_bound files 0 0 ⟨0, 0, 0, 0⟩ g t sc hfold
        simpa [sevTotal] using this

/-- Witness for C10: one Grype file with an unknown-severity match and one
Trivy file with an unknown-severity vulnerability. -/
theorem severity_buckets_bounded_by_total_witness :
    sevTotal (GrypeSummary.mk 1 ⟨0, 0, 0, 0⟩ 0 .good).severity_counts ≤
        (GrypeSummary.mk 1 ⟨0, 0, 0, 0⟩ 0 .good).total ∧
      sevTotal (TrivySummary.mk 1 ⟨0, 0, 0, 0⟩ 1 .good).severity_counts ≤
        (TrivySummary.mk 1 ⟨0, 0, 0, 0⟩ 1 .good).total :=
  ⟨severity_buckets_bounded_by_total.1
      (some (["\x7b\"matches\": [\x7b\"vulnerability\": \x7b\"severity\": \"negligible\"\x7d\x7d]\x7d"], 0))
      (GrypeSummary.mk 1 ⟨0, 0, 0, 0⟩ 0 .good) rfl,
    severity_buckets_bounded_by_total.2
      (some ["\x7b\"Results\": [\x7b\"Vulnerabilities\": [\x7b\"Severity\": \"unknown\"\x7d]\x7d]\x7d"])
      (TrivySummary.mk 1 ⟨0, 0, 0, 0⟩ 1 .good) rfl⟩
